import Mathlib

/-!
Verification of the slipstream TypeScript SDK's connection/transport core.

Shallow embedding of the relevant source functions:
  * the binary wire codec (`src/transport/binary.ts`): auth-frame builder and
    the streaming frame decoders, with Node `Buffer` read semantics made
    explicit (an out-of-range fixed-width read throws, which we model as
    `Except.error ()`; an out-of-range index access yields `undefined`,
    modelled as `none`, and `undefined` propagates through offset arithmetic
    the way `NaN` does in JavaScript);
  * the WebSocket / QUIC transports (`websocket.ts`, `quic.ts`): reconnect
    backoff scheduling, subscription bookkeeping and replay, disconnect and
    close handling, and the pong time-sync computation;
  * the multi-region router (`multi-region.ts`): hint-gated routing updates,
    sequential fallback submission and broadcast fan-out;
  * the client metrics counters (`client.ts`).

Byte strings decoded from the wire are kept as byte lists (`List Nat`)
rather than re-encoded through UTF-8.
-/

namespace Slipstream

/-! ### Node Buffer primitives

`jsIndex buf i` is `buf[i]`: `undefined` (`none`) when the index is out of
range or itself `undefined`/`NaN`.  `jsAdd` is JavaScript `+` on
possibly-`undefined` numbers (`undefined + x` is `NaN`, kept as `none`).
`jsSubarray` is `buf.subarray(start, end)`: `NaN` coerces to `0` and the
bounds clamp to the buffer, an empty slice resulting when `end ≤ start`.
A fixed-width big-endian read (`readUInt16BE` and friends) throws
`ERR_OUT_OF_RANGE` when the offset is `NaN` or the read would run past the
end of the buffer; we model the throw as `Except.error ()`. -/

def jsIndex (buf : List Nat) (i : Option Nat) : Option Nat :=
  match i with
  | none => none
  | some k => buf.get? k

def jsAdd (a b : Option Nat) : Option Nat :=
  match a, b with
  | some x, some y => some (x + y)
  | _, _ => none

def jsSubarray (buf : List Nat) (s e : Option Nat) : List Nat :=
  let s2 := min (s.getD 0) buf.length
  let e2 := min (e.getD 0) buf.length
  (buf.drop s2).take (e2 - s2)

def beBytes (buf : List Nat) (o k : Nat) : Nat :=
  (List.range k).foldl (fun acc i => acc * 256 + buf.getD (o + i) 0) 0

def readBE (buf : List Nat) (off : Option Nat) (k : Nat) : Except Unit Nat :=
  match off with
  | none => Except.error ()
  | some o => if o + k ≤ buf.length then Except.ok (beBytes buf o k) else Except.error ()

def readUInt16BE (buf : List Nat) (off : Option Nat) : Except Unit Nat :=
  readBE buf off 2

def readUInt32BE (buf : List Nat) (off : Option Nat) : Except Unit Nat :=
  readBE buf off 4

def readBigUInt64BE (buf : List Nat) (off : Option Nat) : Except Unit Nat :=
  readBE buf off 8

/-! ### Binary codec (`src/transport/binary.ts`) -/

def STREAM_TYPE_TransactionSubmit : Nat := 1
def STREAM_TYPE_LeaderHints : Nat := 2
def STREAM_TYPE_TipInstructions : Nat := 3
def STREAM_TYPE_PriorityFees : Nat := 4
def STREAM_TYPE_LatestBlockhash : Nat := 6
def STREAM_TYPE_LatestSlot : Nat := 7

/-- Bytes of the constant `SDK_VERSION = 'ts-sdk-v0.1'`. -/
def sdkVersionBytes : List Nat := [116, 115, 45, 115, 100, 107, 45, 118, 48, 46, 49]

/-- Bytes of the default string `'unknown'`. -/
def unknownBytes : List Nat := [117, 110, 107, 110, 111, 119, 110]

/-- Embedding of `buildAuthFrame(apiKey, tier?)`.  The 8-byte key prefix is
the first `min(len, 8)` bytes of the key copied into a zero-filled buffer.
The source appends `[version][0][tier][0]` when `tier` is truthy (present and
non-empty) and only `[version]` otherwise. -/
def buildAuthFrame (apiKey : List Nat) (tier : Option (List Nat)) : List Nat :=
  let keyPrefix := apiKey.take 8 ++ List.replicate (8 - min apiKey.length 8) 0
  match tier with
  | some t =>
      if t.length ≠ 0 then keyPrefix ++ sdkVersionBytes ++ [0] ++ t ++ [0]
      else keyPrefix ++ sdkVersionBytes
  | none => keyPrefix ++ sdkVersionBytes

structure LeaderHintFrame where
  timestamp : Nat
  slot : Nat
  expiresAtSlot : Nat
  preferredRegion : List Nat
  backupRegions : List (List Nat)
  confidence : ℚ
  leaderPubkey : List Nat
  tpuRttMs : ℚ
  regionScore : ℚ
deriving Repr, DecidableEq

structure TipInstructionFrame where
  timestamp : Nat
  sender : List Nat
  senderName : List Nat
  tipWalletAddress : List Nat
  tipAmountSol : ℚ
  tipTier : List Nat
  expectedLatencyMs : Nat
  confidence : ℚ
  validUntilSlot : Nat
  alternativeSenders : List (List Nat)
deriving Repr, DecidableEq

structure PriorityFeeFrame where
  timestamp : Nat
  speed : String
  computeUnitPrice : Nat
  computeUnitLimit : Nat
  estimatedCostSol : ℚ
  landingProbability : ℚ
  networkCongestion : String
  recentSuccessRate : ℚ
deriving Repr, DecidableEq

structure LatestBlockhashFrame where
  blockhash : List Nat
  lastValidBlockHeight : Nat
  timestamp : Nat
deriving Repr, DecidableEq

structure LatestSlotFrame where
  slot : Nat
  timestamp : Nat
deriving Repr, DecidableEq

/-- Embedding of `parseLeaderHint`.  The source guards the first length byte
and the optional pubkey block, so every index access in it is in range and
offsets stay defined; the three fixed-width reads are unguarded and throw on
a buffer that ends before them. -/
def parseLeaderHint (buf : List Nat) : Except Unit (Option LeaderHintFrame) := do
  if buf.length < 1 then return none
  let offset := if buf.getD 0 0 = STREAM_TYPE_LeaderHints then 1 else 0
  if buf.length < offset + 1 then return none
  let regionLen := buf.getD offset 0
  let offset := offset + 1
  let region := jsSubarray buf (some offset) (some (offset + regionLen))
  let offset := offset + regionLen
  let confidenceRaw ← readUInt16BE buf (some offset)
  let offset := offset + 2
  let slotsRemaining ← readUInt32BE buf (some offset)
  let offset := offset + 4
  let pk : List Nat × Nat :=
    if offset < buf.length then
      let pubkeyLen := buf.getD offset 0
      let offset := offset + 1
      if 0 < pubkeyLen ∧ offset + pubkeyLen ≤ buf.length then
        (jsSubarray buf (some offset) (some (offset + pubkeyLen)), offset + pubkeyLen)
      else (unknownBytes, offset)
    else (unknownBytes, offset)
  let timestamp ← readBigUInt64BE buf (some pk.2)
  let confidence : ℚ := (confidenceRaw : ℚ) / 100
  return some
    { timestamp := timestamp
      slot := 0
      expiresAtSlot := slotsRemaining
      preferredRegion := region
      backupRegions := []
      confidence := confidence
      leaderPubkey := pk.1
      tpuRttMs := 0
      regionScore := confidence }

/-- Embedding of `parseTipInstruction`.  After the initial one-byte guard the
source reads length bytes without bounds checks: an out-of-range index yields
`undefined` and poisons the running offset like `NaN`, and the first
fixed-width read at a poisoned or out-of-range offset throws. -/
def parseTipInstruction (buf : List Nat) : Except Unit (Option TipInstructionFrame) := do
  if buf.length < 1 then return none
  let offset0 : Option Nat := some (if buf.getD 0 0 = STREAM_TYPE_TipInstructions then 1 else 0)
  let senderLen := jsIndex buf offset0
  let offset1 := jsAdd offset0 (some 1)
  let sender := jsSubarray buf offset1 (jsAdd offset1 senderLen)
  let offset2 := jsAdd offset1 senderLen
  let walletLen := jsIndex buf offset2
  let offset3 := jsAdd offset2 (some 1)
  let wallet := jsSubarray buf offset3 (jsAdd offset3 walletLen)
  let offset4 := jsAdd offset3 walletLen
  let amountLamports ← readBigUInt64BE buf offset4
  let offset5 := jsAdd offset4 (some 8)
  let tierLen := jsIndex buf offset5
  let offset6 := jsAdd offset5 (some 1)
  let tier := jsSubarray buf offset6 (jsAdd offset6 tierLen)
  let offset7 := jsAdd offset6 tierLen
  let expectedLatencyMs ← readUInt32BE buf offset7
  let offset8 := jsAdd offset7 (some 4)
  let timestamp ← readBigUInt64BE buf offset8
  return some
    { timestamp := timestamp
      sender := sender
      senderName := sender
      tipWalletAddress := wallet
      tipAmountSol := (amountLamports : ℚ) / 1000000000
      tipTier := tier
      expectedLatencyMs := expectedLatencyMs
      confidence := 100
      validUntilSlot := 0
      alternativeSenders := [] }

/-- Embedding of `parsePriorityFee`.  Offsets here are fixed distances from
the tag, so they stay defined; the percentile byte is read by plain index,
which is in range whenever the later fixed-width reads succeed. -/
def parsePriorityFee (buf : List Nat) : Except Unit (Option PriorityFeeFrame) := do
  if buf.length < 1 then return none
  let offset := if buf.getD 0 0 = STREAM_TYPE_PriorityFees then 1 else 0
  let microLamports ← readBigUInt64BE buf (some offset)
  let offset := offset + 8
  let percentile := buf.getD offset 0
  let offset := offset + 1
  let sampleCount ← readUInt32BE buf (some offset)
  let offset := offset + 4
  let timestamp ← readBigUInt64BE buf (some offset)
  return some
    { timestamp := timestamp
      speed := if 75 ≤ percentile then "fast" else if 50 ≤ percentile then "medium" else "slow"
      computeUnitPrice := microLamports
      computeUnitLimit := 200000
      estimatedCostSol := (microLamports : ℚ) * 200000 / 1000000000000
      landingProbability := (percentile : ℚ) / 100
      networkCongestion :=
        if 100000 < microLamports then "high" else if 10000 < microLamports then "medium" else "low"
      recentSuccessRate := if 0 < sampleCount then (95 : ℚ) / 100 else 0 }

/-- Embedding of `parseLatestBlockhash`: the hash length byte is unguarded,
so a buffer that is only the tag poisons the offset and the following
fixed-width read throws. -/
def parseLatestBlockhash (buf : List Nat) : Except Unit (Option LatestBlockhashFrame) := do
  if buf.length < 1 then return none
  let offset0 : Option Nat := some (if buf.getD 0 0 = STREAM_TYPE_LatestBlockhash then 1 else 0)
  let hashLen := jsIndex buf offset0
  let offset1 := jsAdd offset0 (some 1)
  let blockhash := jsSubarray buf offset1 (jsAdd offset1 hashLen)
  let offset2 := jsAdd offset1 hashLen
  let lastValidBlockHeight ← readBigUInt64BE buf offset2
  let offset3 := jsAdd offset2 (some 8)
  let timestamp ← readBigUInt64BE buf offset3
  return some
    { blockhash := blockhash
      lastValidBlockHeight := lastValidBlockHeight
      timestamp := timestamp }

/-- Embedding of `parseLatestSlot`: two unguarded fixed-width reads after the
optional tag byte. -/
def parseLatestSlot (buf : List Nat) : Except Unit (Option LatestSlotFrame) := do
  if buf.length < 1 then return none
  let offset := if buf.getD 0 0 = STREAM_TYPE_LatestSlot then 1 else 0
  let slot ← readBigUInt64BE buf (some offset)
  let offset := offset + 8
  let timestamp ← readBigUInt64BE buf (some offset)
  return some { slot := slot, timestamp := timestamp }

/-! ### WebSocket / QUIC reconnect backoff (`websocket.ts`, `quic.ts`) -/

/-- Reconnect-relevant state of `WebSocketTransport`: the `reconnecting` latch
and the consecutive attempt counter (`maxReconnectAttempts` is the constant
10). -/
structure WsReconnectState where
  reconnecting : Bool
  reconnectAttempts : Nat
deriving Repr, DecidableEq

/-- Embedding of `WebSocketTransport.scheduleReconnect`.  Returns the new
state, the delay of the timer it arms (`none` when it bails out), and the
number of terminal error events it emits.  The guard returns silently — it
never emits an error. -/
def wsScheduleReconnect (s : WsReconnectState) : WsReconnectState × Option Nat × Nat :=
  if s.reconnecting || 10 ≤ s.reconnectAttempts then (s, none, 0)
  else
    ({ reconnecting := true, reconnectAttempts := s.reconnectAttempts + 1 },
      some (min (1000 * 2 ^ s.reconnectAttempts) 30000), 0)

/-- Embedding of `QuicTransport.scheduleReconnect`: same backoff, but at
exhaustion it emits one CONNECTION error event before bailing out. -/
def quicScheduleReconnect (attempts : Nat) : Nat × Option Nat × Nat :=
  if 10 ≤ attempts then (attempts, none, 1)
  else (attempts + 1, some (min (1000 * 2 ^ attempts) 30000), 0)

/-- Driver for a run of up to `n` consecutive failed WebSocket reconnect
attempts: each cycle schedules a reconnect, the timer fires (clearing the
`reconnecting` latch), the connect attempt fails and its close handler calls
`scheduleReconnect` again.  When no timer is armed the run ends.  Returns the
list of armed delays and the total count of terminal error events. -/
def wsFailLoop : Nat → WsReconnectState → List Nat × Nat
  | 0, _ => ([], 0)
  | n + 1, s =>
    match wsScheduleReconnect s with
    | (s1, some d, e) =>
        let r := wsFailLoop n { s1 with reconnecting := false }
        (d :: r.1, e + r.2)
    | (_, none, e) => ([], e)

/-- Driver for a run of up to `n` consecutive failed QUIC reconnect
attempts. -/
def quicFailLoop : Nat → Nat → List Nat × Nat
  | 0, _ => ([], 0)
  | n + 1, a =>
    match quicScheduleReconnect a with
    | (a1, some d, e) =>
        let r := quicFailLoop n a1
        (d :: r.1, e + r.2)
    | (_, none, e) => ([], e)

/-- Delay schedule produced by ten failed attempts. -/
def backoffDelays : List Nat :=
  [1000, 2000, 4000, 8000, 16000, 30000, 30000, 30000, 30000, 30000]

/-! ### WebSocket subscription bookkeeping and replay (`websocket.ts`) -/

/-- Wire messages the subscription logic sends. -/
inductive WsMsg where
  | sub (stream : String)
  | unsub (stream : String)
deriving Repr, DecidableEq

/-- Insertion into a JavaScript `Set` kept as an insertion-ordered list. -/
def setAdd (l : List String) (s : String) : List String :=
  if s ∈ l then l else l ++ [s]

/-- Subscription-relevant state of `WebSocketTransport`: the `connected`
flag, the `subscribedStreams` set, and the log of sent messages. -/
structure WsSubState where
  connected : Bool
  subscribedStreams : List String
  sent : List WsMsg
deriving Repr, DecidableEq

def wsSubInit : WsSubState := { connected := false, subscribedStreams := [], sent := [] }

/-- Embedding of the `subscribeX` methods: record intent in the set, and send
the subscribe request only when connected. -/
def wsSubscribeStream (st : WsSubState) (s : String) : WsSubState :=
  { st with
    subscribedStreams := setAdd st.subscribedStreams s
    sent := st.sent ++ if st.connected then [WsMsg.sub s] else [] }

/-- Embedding of `unsubscribe`: remove from the set, and send the unsubscribe
request only when connected. -/
def wsUnsubscribeStream (st : WsSubState) (s : String) : WsSubState :=
  { st with
    subscribedStreams := st.subscribedStreams.erase s
    sent := st.sent ++ if st.connected then [WsMsg.unsub s] else [] }

/-- Embedding of the `'connected'` branch of the message handler: mark
connected and replay every currently-desired subscription as a subscribe
request. -/
def wsOnConnected (st : WsSubState) : WsSubState :=
  { st with
    connected := true
    sent := st.sent ++ st.subscribedStreams.map WsMsg.sub }

/-- Embedding of the close handler's effect on the subscription state: the
set is kept, only `connected` drops. -/
def wsOnClosedSub (st : WsSubState) : WsSubState :=
  { st with connected := false }

/-- Caller-visible operations that touch the subscription state. -/
inductive WsOp where
  | subscribe (stream : String)
  | unsubscribe (stream : String)
  | connectOk
  | close
deriving Repr, DecidableEq

def wsSubStep (st : WsSubState) : WsOp → WsSubState
  | WsOp.subscribe s => wsSubscribeStream st s
  | WsOp.unsubscribe s => wsUnsubscribeStream st s
  | WsOp.connectOk => wsOnConnected st
  | WsOp.close => wsOnClosedSub st

def wsSubRun (ops : List WsOp) : WsSubState := ops.foldl wsSubStep wsSubInit

/-- One step of the "currently desired" specification for a fixed stream
`s`: the last subscribe/unsubscribe for `s` wins, connection events are
irrelevant. -/
def desiredStep (s : String) (b : Bool) : WsOp → Bool
  | WsOp.subscribe t => if t = s then true else b
  | WsOp.unsubscribe t => if t = s then false else b
  | WsOp.connectOk => b
  | WsOp.close => b

/-- Specification of "currently desired": the characteristic function of the
subscription intent after a sequence of caller operations. -/
def wsDesired (ops : List WsOp) (s : String) : Bool :=
  ops.foldl (desiredStep s) false

/-! ### WebSocket disconnect and close handling (`websocket.ts`) -/

/-- Error codes of `SlipstreamError` relevant here (`errors.ts`). -/
inductive ErrCode where
  | CONFIG
  | CONNECTION
  | AUTH
  | PROTOCOL
  | TRANSACTION
  | TIMEOUT
  | NOT_CONNECTED
  | INTERNAL
deriving Repr, DecidableEq

/-- Connection-lifecycle state of `WebSocketTransport`: the flags and timers
`disconnect()` touches, plus the outstanding `pendingRequests` keyed by
request id. -/
structure WsConnState where
  shouldReconnect : Bool
  heartbeatOn : Bool
  reconnectTimerSet : Bool
  reconnecting : Bool
  reconnectAttempts : Nat
  wsOpen : Bool
  connected : Bool
  pendingRequests : List String
deriving Repr, DecidableEq

/-- Embedding of `WebSocketTransport.disconnect()`: everything it does before
returning.  It clears the reconnect flag, stops the heartbeat, discards the
reconnect timer, initiates the socket close and drops the handle, and marks
the transport disconnected.  It does not touch `pendingRequests` and emits no
rejection; those happen later, in the socket's close handler. -/
def wsDisconnect (st : WsConnState) : WsConnState × List (String × ErrCode) :=
  ({ st with
      shouldReconnect := false
      heartbeatOn := false
      reconnectTimerSet := false
      wsOpen := false
      connected := false },
    [])

/-- Embedding of the `onClose` handler: mark disconnected, stop the
heartbeat, reject every pending request with a CONNECTION error and clear the
map, then schedule a reconnect only if `shouldReconnect` still holds and the
backoff guard admits it. -/
def wsOnClose (st : WsConnState) : WsConnState × List (String × ErrCode) :=
  let rejections := st.pendingRequests.map (fun id => (id, ErrCode.CONNECTION))
  let st1 : WsConnState :=
    { st with connected := false, heartbeatOn := false, pendingRequests := [] }
  if st1.shouldReconnect then
    if st1.reconnecting || 10 ≤ st1.reconnectAttempts then (st1, rejections)
    else
      ({ st1 with
          reconnecting := true
          reconnectAttempts := st1.reconnectAttempts + 1
          reconnectTimerSet := true },
        rejections)
  else (st1, rejections)

/-! ### Pong handling and time sync (`websocket.ts`) -/

structure PendingPing where
  clientSendTime : Int
deriving Repr, DecidableEq

structure PingResult where
  seq : Int
  rttMs : Int
  clockOffsetMs : Int
  serverTime : Int
deriving Repr, DecidableEq

/-- Embedding of the `'pong'` branch of `handleMessage`: resolve the pending
ping with `rttMs = now - clientSendTime` and
`clockOffsetMs = serverTime - (clientSendTime + Math.floor(rttMs / 2))`
(`Math.floor` of a real division is flooring integer division). -/
def handlePong (pending : PendingPing) (msgSeq serverTime now : Int) : PingResult :=
  let rttMs := now - pending.clientSendTime
  let clockOffsetMs := serverTime - (pending.clientSendTime + Int.fdiv rttMs 2)
  { seq := msgSeq, rttMs := rttMs, clockOffsetMs := clockOffsetMs, serverTime := serverTime }

/-- Embedding of the caller-invoked single-probe `ping()`: it records
`clientSendTime`, sends the ping, and its promise is resolved by the very
same `'pong'` branch of `handleMessage` applied to that pending record. -/
def pingMeasure (clientSendTime seq serverTime now : Int) : PingResult :=
  handlePong { clientSendTime := clientSendTime } seq serverTime now

/-! ### Multi-region router (`multi-region.ts`) -/

structure RoutingRec where
  bestRegion : String
  leaderPubkey : String
  slot : Int
  confidence : ℚ
  expectedRttMs : ℚ
  fallbackRegions : List String
  validForMs : Int
deriving Repr, DecidableEq

/-- Leader hint as delivered by the WebSocket transport (JSON shape). -/
structure LeaderHint where
  timestamp : Int
  slot : Int
  expiresAtSlot : Int
  preferredRegion : String
  backupRegions : List String
  confidence : ℚ
  leaderPubkey : String
  tpuRttMs : ℚ
deriving Repr, DecidableEq

/-- Routing-relevant state of `MultiRegionClient`. -/
structure MultiRegionState where
  currentRouting : Option RoutingRec
  lastSwitchTime : Int
deriving Repr, DecidableEq

/-- Recommendation built from an accepted hint in `updateRoutingFromHint`. -/
def routingFromHint (hint : LeaderHint) : RoutingRec :=
  { bestRegion := hint.preferredRegion
    leaderPubkey := hint.leaderPubkey
    slot := hint.slot
    confidence := hint.confidence
    expectedRttMs := hint.tpuRttMs
    fallbackRegions := hint.backupRegions
    validForMs := 1000 }

/-- Embedding of `MultiRegionClient.updateRoutingFromHint`: bail out while
the cooldown since the last accepted switch has not elapsed, bail out below
the minimum switch confidence, otherwise install the new recommendation,
stamp the switch time and emit one `routingUpdate` event. -/
def updateRoutingFromHint (minSwitchConfidence : ℚ) (switchCooldownMs : Int)
    (st : MultiRegionState) (hint : LeaderHint) (now : Int) :
    MultiRegionState × List RoutingRec :=
  if now - st.lastSwitchTime < switchCooldownMs then (st, [])
  else if hint.confidence < minSwitchConfidence then (st, [])
  else
    ({ currentRouting := some (routingFromHint hint), lastSwitchTime := now },
      [routingFromHint hint])

/-- Outcome environment: what one submission attempt to a given region
settles to. -/
def RegionOutcome (E R : Type) := String → Except E R

/-- Fallback sweep in `submitTransactionWithOptions`: each fallback region is
tried in order, its error discarded by `catch { continue }`; when the list is
exhausted the saved primary error `e` is rethrown. -/
def tryFallbacks {E R : Type} (outcome : RegionOutcome E R) (e : E) :
    List String → Except E R
  | [] => Except.error e
  | f :: rest =>
    match outcome f with
    | Except.ok r => Except.ok r
    | Except.error _ => tryFallbacks outcome e rest

/-- Region targeted by a routed submission:
`this.currentRouting?.bestRegion ?? this.getDefaultRegion()`. -/
def routedRegion (routing : Option RoutingRec) (defaultRegion : String) : String :=
  match routing with
  | some r => r.bestRegion
  | none => defaultRegion

/-- Fallback list of a routed submission:
`this.currentRouting?.fallbackRegions ?? []`. -/
def routedFallbacks (routing : Option RoutingRec) : List String :=
  match routing with
  | some r => r.fallbackRegions
  | none => []

/-- Embedding of the routed (non-broadcast) path of
`MultiRegionClient.submitTransactionWithOptions`: submit to the current best
region (or the default when no routing is installed), and on error sweep the
current hint's fallback regions. -/
def routedSubmit {E R : Type} (outcome : RegionOutcome E R)
    (routing : Option RoutingRec) (defaultRegion : String) : Except E R :=
  match outcome (routedRegion routing defaultRegion) with
  | Except.ok r => Except.ok r
  | Except.error e => tryFallbacks outcome e (routedFallbacks routing)

/-- Embedding of `getBroadcastRegions`: the first `maxBroadcastRegions` keys
of the worker map. -/
def getBroadcastRegions (allRegions : List String) (maxBroadcastRegions : Nat) : List String :=
  allRegions.take maxBroadcastRegions

/-- First fulfilled result, in list order (the first loop over the settled
results). -/
def firstFulfilled {E R : Type} : List (Except E R) → Option R
  | [] => none
  | Except.ok r :: _ => some r
  | Except.error _ :: rest => firstFulfilled rest

/-- First rejected result, in list order (`results.find?` over the settled
results). -/
def firstRejected {E R : Type} : List (Except E R) → Option E
  | [] => none
  | Except.ok _ :: rest => firstRejected rest
  | Except.error e :: _ => some e

/-- Embedding of `MultiRegionClient.broadcastTransaction`: settle one attempt
per broadcast region, return the first fulfilled value, otherwise throw the
first rejection's reason, otherwise (no regions at all) a generic
TRANSACTION error. -/
def broadcastTransaction {R : Type} (outcome : RegionOutcome ErrCode R)
    (allRegions : List String) (maxBroadcastRegions : Nat) : Except ErrCode R :=
  let regions := getBroadcastRegions allRegions maxBroadcastRegions
  let results := regions.map outcome
  match firstFulfilled results with
  | some r => Except.ok r
  | none =>
    match firstRejected results with
    | some e => Except.error e
    | none => Except.error ErrCode.TRANSACTION

/-! ### Client metrics (`client.ts`) -/

/-- Metrics counters of `SlipstreamClient`. -/
structure ClientMetrics where
  txSubmitted : Nat
  txConfirmed : Nat
  totalLatencyMs : Nat
  lastLatencyMs : Nat
deriving Repr, DecidableEq

def clientMetricsInit : ClientMetrics :=
  { txSubmitted := 0, txConfirmed := 0, totalLatencyMs := 0, lastLatencyMs := 0 }

/-- One settled call of `submitTransactionWithOptions`: either the transport
threw, or it resolved with a status after `elapsedMs` milliseconds. -/
inductive SubmitEvent where
  | failure
  | success (status : String) (elapsedMs : Nat)
deriving Repr, DecidableEq

/-- Embedding of the counter updates in
`SlipstreamClient.submitTransactionWithOptions`: a throw only bumps
`txSubmitted`; a resolution also records the latency and bumps `txConfirmed`
when the status is `'confirmed'` or `'sent'`. -/
def submitStep (m : ClientMetrics) : SubmitEvent → ClientMetrics
  | SubmitEvent.failure => { m with txSubmitted := m.txSubmitted + 1 }
  | SubmitEvent.success status elapsedMs =>
    let m1 : ClientMetrics :=
      { m with
          lastLatencyMs := elapsedMs
          txSubmitted := m.txSubmitted + 1
          totalLatencyMs := m.totalLatencyMs + elapsedMs }
    if status = "confirmed" ∨ status = "sent" then
      { m1 with txConfirmed := m1.txConfirmed + 1 }
    else m1

def clientRun (evs : List SubmitEvent) : ClientMetrics :=
  evs.foldl submitStep clientMetricsInit

structure PerformanceMetrics where
  transactionsSubmitted : Nat
  transactionsConfirmed : Nat
  averageLatencyMs : ℚ
  successRate : ℚ
deriving Repr, DecidableEq

/-- Embedding of `SlipstreamClient.metrics()`. -/
def metrics (m : ClientMetrics) : PerformanceMetrics :=
  { transactionsSubmitted := m.txSubmitted
    transactionsConfirmed := m.txConfirmed
    averageLatencyMs :=
      if 0 < m.txSubmitted then (m.totalLatencyMs : ℚ) / (m.txSubmitted : ℚ) else 0
    successRate :=
      if 0 < m.txSubmitted then (m.txConfirmed : ℚ) / (m.txSubmitted : ℚ) else 0 }

/-! ## Theorems for the claims -/

/-- Claim C1 (refuted, code bug): the spec requires every streaming frame
decoder to validate lengths and return the null sentinel on truncated input
without ever throwing, but each of the five decoders has a short buffer on
which it reaches an unguarded fixed-width `Buffer` read past the end of the
buffer and throws `ERR_OUT_OF_RANGE` (modelled as `Except.error ()`). -/
theorem C1_streaming_parsers_throw_on_truncated :
    parseLeaderHint [0] = Except.error () ∧
    parseTipInstruction [3, 0, 0] = Except.error () ∧
    parsePriorityFee [0] = Except.error () ∧
    parseLatestBlockhash [0] = Except.error () ∧
    parseLatestSlot [0] = Except.error () :=
  ⟨rfl, rfl, rfl, rfl, rfl⟩

/-- Claim C9 (refuted, code bug): with a tier present the auth frame matches
the documented layout `[8B prefix][version][\x00][tier][\x00]`, but with the
tier omitted the builder returns `[8B prefix][version]` with no null
terminator after the version string (the frame ends in byte 49, the digit
`'1'` of the version), contradicting both the spec table and the function's
own doc comment. -/
theorem C9_auth_frame_missing_version_null :
    buildAuthFrame [107, 101, 121] none
      = [107, 101, 121, 0, 0, 0, 0, 0] ++ sdkVersionBytes ∧
    (buildAuthFrame [107, 101, 121] none).getLast? = some 49 ∧
    buildAuthFrame [107, 101, 121] none
      ≠ [107, 101, 121, 0, 0, 0, 0, 0] ++ sdkVersionBytes ++ [0] ∧
    buildAuthFrame [107, 101, 121] (some [112, 114, 111])
      = [107, 101, 121, 0, 0, 0, 0, 0] ++ sdkVersionBytes ++ [0] ++ [112, 114, 111] ++ [0] := by
  refine ⟨by decide, by decide, by decide, by decide⟩

/-- Claim C7 (confirmed): the pong handler measures `rttMs = now -
clientSendTime` and `clockOffsetMs = serverTime - (clientSendTime +
⌊rttMs / 2⌋)`; the offset can be negative; and the caller-invoked
single-probe `ping()` is resolved by the same handler, hence the same
formula. -/
theorem C7_time_sync_formula :
    (∀ send seq server now : Int,
      (handlePong { clientSendTime := send } seq server now).rttMs = now - send) ∧
    (∀ send seq server now : Int,
      (handlePong { clientSendTime := send } seq server now).clockOffsetMs
        = server - (send + Int.fdiv (now - send) 2)) ∧
    (∀ send seq server now : Int,
      pingMeasure send seq server now = handlePong { clientSendTime := send } seq server now) ∧
    (∃ send seq server now : Int,
      (handlePong { clientSendTime := send } seq server now).clockOffsetMs < 0) := by
  refine ⟨fun _ _ _ _ => rfl, fun _ _ _ _ => rfl, fun _ _ _ _ => rfl, 0, 0, -1, 0, by decide⟩

/-- Concrete connected state with one outstanding pending request, used to
exercise `disconnect()`. -/
def c8State : WsConnState :=
  { shouldReconnect := true
    heartbeatOn := true
    reconnectTimerSet := true
    reconnecting := false
    reconnectAttempts := 0
    wsOpen := true
    connected := true
    pendingRequests := ["req_1"] }

/-- Claim C8 counterexample: on a connected transport with one outstanding
pending request, `disconnect()` returns having emitted no rejection and with
the request still pending — so pending requests are not rejected before
`disconnect()` returns, contrary to the claim. -/
theorem C8_pending_not_rejected_before_return :
    (wsDisconnect c8State).2 = [] ∧
    (wsDisconnect c8State).1.pendingRequests = ["req_1"] ∧
    (wsDisconnect c8State).1.pendingRequests ≠ [] := by
  refine ⟨rfl, rfl, by decide⟩

/-- Claim C8 (corrected): before returning, `disconnect()` disables
reconnection, stops the heartbeat, discards any pending reconnect timer,
releases the socket and marks the transport disconnected, while leaving
pending requests untouched and emitting no rejection; the rejection of every
outstanding pending request with a CONNECTION error happens afterwards, when
the socket's close event fires, and that close handler schedules no further
reconnect. -/
theorem C8_disconnect_then_close (st : WsConnState) :
    (wsDisconnect st).1.shouldReconnect = false ∧
    (wsDisconnect st).1.heartbeatOn = false ∧
    (wsDisconnect st).1.reconnectTimerSet = false ∧
    (wsDisconnect st).1.wsOpen = false ∧
    (wsDisconnect st).1.connected = false ∧
    (wsDisconnect st).1.pendingRequests = st.pendingRequests ∧
    (wsDisconnect st).2 = [] ∧
    (wsOnClose (wsDisconnect st).1).1.pendingRequests = [] ∧
    (wsOnClose (wsDisconnect st).1).2
      = st.pendingRequests.map (fun id => (id, ErrCode.CONNECTION)) ∧
    (wsOnClose (wsDisconnect st).1).1.reconnectTimerSet = false := by
  refine ⟨rfl, rfl, rfl, rfl, rfl, rfl, rfl, ?_, ?_, ?_⟩ <;> simp [wsDisconnect, wsOnClose]

/-- Routing installed for the C3 scenario: best region `"a"` with the single
fallback region `"b"`. -/
def c3Routing : RoutingRec :=
  { bestRegion := "a"
    leaderPubkey := "L"
    slot := 0
    confidence := 90
    expectedRttMs := 0
    fallbackRegions := ["b"]
    validForMs := 1000 }

/-- Outcome environment where every region fails with an error labelled by
the region's own name, so the provenance of the re-raised error is visible. -/
def c3Outcome : RegionOutcome String Unit := fun region => Except.error region

/-- Claim C3 counterexample: with best region `"a"` failing (error `"a"`)
and the fallback region `"b"` also failing (error `"b"`), the last error
encountered is `"b"`, yet `submitTransactionWithOptions` re-raises `"a"` —
the error of the initial best-region attempt, not the last one. -/
theorem C3_last_error_not_reraised :
    routedSubmit c3Outcome (some c3Routing) "us-east" = Except.error "a" ∧
    routedSubmit c3Outcome (some c3Routing) "us-east" ≠ Except.error "b" := by
  refine ⟨rfl, ?_⟩
  intro h
  rw [show routedSubmit c3Outcome (some c3Routing) "us-east" = Except.error "a" from rfl] at h
  simp at h

/-- Fallback sweep helper: when every fallback fails, the sweep returns the
saved error unchanged. -/
theorem tryFallbacks_all_fail {E R : Type} (outcome : RegionOutcome E R) (e : E) :
    ∀ l : List String, (∀ f ∈ l, ∃ e2, outcome f = Except.error e2) →
      tryFallbacks outcome e l = Except.error e := by
  intro l
  induction l with
  | nil => intro _; rfl
  | cons f rest ih =>
    intro h
    obtain ⟨e2, he2⟩ := h f (List.mem_cons_self f rest)
    have hrest := ih fun g hg => h g (List.mem_cons_of_mem f hg)
    simp [tryFallbacks, he2, hrest]

/-- Claim C3 (corrected): when the attempt to the current best region fails
and every region in the current hint's fallback list also fails,
`submitTransactionWithOptions` re-raises the error of the initial best-region
attempt (the first error); the fallback errors are discarded. -/
theorem C3_reraises_first_error {E R : Type} (outcome : RegionOutcome E R)
    (routing : Option RoutingRec) (defaultRegion : String) (e : E)
    (hbest : outcome (routedRegion routing defaultRegion) = Except.error e)
    (hfall : ∀ f ∈ routedFallbacks routing, ∃ e2, outcome f = Except.error e2) :
    routedSubmit outcome routing defaultRegion = Except.error e := by
  unfold routedSubmit
  rw [hbest]
  exact tryFallbacks_all_fail outcome e _ hfall

/-- Witness for C3: the corrected statement applied to the concrete two-region
scenario of the counterexample. -/
theorem C3_reraises_first_error_witness :
    routedSubmit c3Outcome (some c3Routing) "us-east" = Except.error "a" :=
  C3_reraises_first_error c3Outcome (some c3Routing) "us-east" "a" rfl
    (by intro f hf; exact ⟨f, rfl⟩)

/-- Claim C5 (confirmed): a hint arriving before the switch cooldown has
elapsed, or whose confidence is below the configured minimum, leaves
`currentRouting` unchanged and emits nothing; a hint passing both gates
installs the new recommendation (best region, fallback list, 1s validity
window), stamps the switch time, and emits exactly one `routingUpdate`
event. -/
theorem C5_routing_gates (minConf : ℚ) (cooldown : Int) (st : MultiRegionState)
    (hint : LeaderHint) (now : Int) :
    (hint.confidence < minConf →
      updateRoutingFromHint minConf cooldown st hint now = (st, [])) ∧
    (now - st.lastSwitchTime < cooldown →
      updateRoutingFromHint minConf cooldown st hint now = (st, [])) ∧
    (minConf ≤ hint.confidence → cooldown ≤ now - st.lastSwitchTime →
      updateRoutingFromHint minConf cooldown st hint now =
        ({ currentRouting := some (routingFromHint hint), lastSwitchTime := now },
          [routingFromHint hint])) := by
  refine ⟨?_, ?_, ?_⟩
  · intro hconf
    unfold updateRoutingFromHint
    split
    · rfl
    · simp [hconf]
  · intro hcool
    unfold updateRoutingFromHint
    simp [hcool]
  · intro hconf hcool
    unfold updateRoutingFromHint
    rw [if_neg (by omega), if_neg (by exact not_lt.mpr hconf)]

/-- Concrete high-confidence hint for the C5 witness. -/
def c5Hint : LeaderHint :=
  { timestamp := 0
    slot := 7
    expiresAtSlot := 9
    preferredRegion := "eu-central"
    backupRegions := ["us-east"]
    confidence := 80
    leaderPubkey := "L"
    tpuRttMs := 12 }

/-- Witness for C5: with minimum confidence 70 and a 5000 ms cooldown, a
confidence-80 hint arriving 6000 ms after the last switch is accepted. -/
theorem C5_routing_gates_witness :
    updateRoutingFromHint 70 5000 { currentRouting := none, lastSwitchTime := 0 } c5Hint 6000 =
      ({ currentRouting := some (routingFromHint c5Hint), lastSwitchTime := 6000 },
        [routingFromHint c5Hint]) :=
  (C5_routing_gates 70 5000 { currentRouting := none, lastSwitchTime := 0 } c5Hint 6000).2.2
    (by norm_num [c5Hint]) (by norm_num)

/-- First-fulfilled helper: a settled list containing a fulfilled entry has a
first fulfilled value. -/
theorem firstFulfilled_isSome {E R : Type} :
    ∀ l : List (Except E R), (∃ x ∈ l, ∃ r, x = Except.ok r) →
      ∃ r, firstFulfilled l = some r := by
  intro l
  induction l with
  | nil => intro h; simp at h
  | cons x rest ih =>
    rintro ⟨y, hy, r, hr⟩
    cases x with
    | ok r0 => exact ⟨r0, rfl⟩
    | error e =>
      rcases List.mem_cons.mp hy with h | h
      · exact absurd (h ▸ hr) (by simp)
      · exact ih ⟨y, h, r, hr⟩

/-- First-fulfilled helper: a settled list of rejections has no fulfilled
entry. -/
theorem firstFulfilled_none {E R : Type} :
    ∀ l : List (Except E R), (∀ x ∈ l, ∃ e, x = Except.error e) →
      firstFulfilled l = none := by
  intro l
  induction l with
  | nil => intro _; rfl
  | cons x rest ih =>
    intro h
    obtain ⟨e, he⟩ := h x (List.mem_cons_self x rest)
    have hrest := ih fun y hy => h y (List.mem_cons_of_mem x hy)
    rw [he]
    simpa [firstFulfilled] using hrest

/-- Claim C6 (confirmed): a broadcast submission fans out to at most
`maxBroadcastRegions` regions; when some regional attempt succeeds the call
resolves with the first success (in the settled order of the region list);
when the first region fails and every other region also fails, it rejects
with the first failure's error. -/
theorem C6_broadcast_first_success_or_first_error {R : Type}
    (outcome : RegionOutcome ErrCode R) (allRegions : List String) (maxB : Nat) :
    (getBroadcastRegions allRegions maxB).length ≤ maxB ∧
    ((∃ g ∈ getBroadcastRegions allRegions maxB, ∃ r, outcome g = Except.ok r) →
      ∃ r, firstFulfilled ((getBroadcastRegions allRegions maxB).map outcome) = some r ∧
        broadcastTransaction outcome allRegions maxB = Except.ok r) ∧
    (∀ g0 rest e0, getBroadcastRegions allRegions maxB = g0 :: rest →
      outcome g0 = Except.error e0 →
      (∀ g ∈ rest, ∃ e, outcome g = Except.error e) →
      broadcastTransaction outcome allRegions maxB = Except.error e0) := by
  refine ⟨?_, ?_, ?_⟩
  · simp [getBroadcastRegions, List.length_take]
  · rintro ⟨g, hg, r, hr⟩
    obtain ⟨r1, hr1⟩ := firstFulfilled_isSome
      ((getBroadcastRegions allRegions maxB).map outcome)
      ⟨outcome g, List.mem_map_of_mem outcome hg, r, hr⟩
    refine ⟨r1, hr1, ?_⟩
    simp [broadcastTransaction, hr1]
  · intro g0 rest e0 hregions hg0 hrest
    have hnone : firstFulfilled ((getBroadcastRegions allRegions maxB).map outcome) = none := by
      apply firstFulfilled_none
      intro x hx
      rw [hregions] at hx
      rcases List.mem_map.mp hx with ⟨g, hg, hxg⟩
      rcases List.mem_cons.mp hg with h | h
      · exact ⟨e0, by rw [← hxg, h, hg0]⟩
      · obtain ⟨e, he⟩ := hrest g h
        exact ⟨e, by rw [← hxg, he]⟩
    have hnone2 : firstFulfilled (Except.error e0 :: rest.map outcome : List (Except ErrCode R))
        = none := by
      rw [hregions, List.map_cons, hg0] at hnone
      exact hnone
    simp [broadcastTransaction, hregions, hg0, firstRejected]
    rw [hnone2]

/-- Broadcast outcome where exactly one of three regions succeeds. -/
def c6OutcomeOneOk : RegionOutcome ErrCode Nat := fun region =>
  if region = "c" then Except.ok 1 else Except.error ErrCode.CONNECTION

/-- Broadcast outcome where all three regions fail, the first with TIMEOUT. -/
def c6OutcomeAllFail : RegionOutcome ErrCode Nat := fun region =>
  if region = "a" then Except.error ErrCode.TIMEOUT else Except.error ErrCode.CONNECTION

/-- Witness for C6: with regions `a`, `b`, `c` where only `c` succeeds the
broadcast resolves with a success, and where all fail it rejects with the
first failure (TIMEOUT from region `a`). -/
theorem C6_broadcast_witness :
    (∃ r, firstFulfilled ((getBroadcastRegions ["a", "b", "c"] 3).map c6OutcomeOneOk) = some r ∧
      broadcastTransaction c6OutcomeOneOk ["a", "b", "c"] 3 = Except.ok r) ∧
    broadcastTransaction c6OutcomeAllFail ["a", "b", "c"] 3 = Except.error ErrCode.TIMEOUT := by
  constructor
  · exact (C6_broadcast_first_success_or_first_error c6OutcomeOneOk ["a", "b", "c"] 3).2.1
      ⟨"c", by decide, 1, rfl⟩
  · exact (C6_broadcast_first_success_or_first_error c6OutcomeAllFail ["a", "b", "c"] 3).2.2
      "a" ["b", "c"] ErrCode.TIMEOUT rfl rfl
      (by
        intro g hg
        fin_cases hg <;> exact ⟨ErrCode.CONNECTION, rfl⟩)

/-- Claim C2 counterexample: after 10 consecutive failed reconnect attempts
the WebSocket transport's `scheduleReconnect` guard returns silently, so a
run of 11 failures emits zero terminal error events — not exactly one as the
claim states for every streaming transport. -/
theorem C2_ws_exhaustion_emits_no_error :
    (wsFailLoop 11 { reconnecting := false, reconnectAttempts := 0 }).2 = 0 ∧
    (wsFailLoop 11 { reconnecting := false, reconnectAttempts := 0 }).2 ≠ 1 := by
  decide

/-- Backoff table helper: before exhaustion, dropping `a` entries of the
delay table exposes the delay `min(1000 * 2 ^ a, 30000)` of attempt `a`. -/
theorem backoffDelays_drop :
    ∀ a < 10, backoffDelays.drop a
      = min (1000 * 2 ^ a) 30000 :: backoffDelays.drop (a + 1) := by
  decide

/-- Runs of failed WebSocket reconnects from attempt counter `a`: the armed
delays are a prefix of the backoff table and no error event is ever
emitted. -/
theorem wsFailLoop_spec :
    ∀ n a, a ≤ 10 →
      wsFailLoop n { reconnecting := false, reconnectAttempts := a }
        = ((backoffDelays.drop a).take n, 0) := by
  intro n
  induction n with
  | zero => intro a _; simp [wsFailLoop]
  | succ n ih =>
    intro a ha
    rcases Nat.lt_or_ge a 10 with hlt | hge
    · have hstep : wsScheduleReconnect { reconnecting := false, reconnectAttempts := a }
          = ({ reconnecting := true, reconnectAttempts := a + 1 },
              some (min (1000 * 2 ^ a) 30000), 0) := by
        simp [wsScheduleReconnect, Nat.not_le.mpr hlt]
      rw [wsFailLoop, hstep]
      dsimp only
      rw [ih (a + 1) (by omega), backoffDelays_drop a hlt]
      simp
    · have ha10 : a = 10 := le_antisymm ha hge
      subst ha10
      rw [wsFailLoop]
      simp [wsScheduleReconnect, backoffDelays]

/-- Runs of failed QUIC reconnects from attempt counter `a`: same delays,
and exactly one terminal error event once the run outlives the 10-attempt
budget. -/
theorem quicFailLoop_spec :
    ∀ n a, a ≤ 10 →
      quicFailLoop n a = ((backoffDelays.drop a).take n, if 10 - a < n then 1 else 0) := by
  intro n
  induction n with
  | zero => intro a _; simp [quicFailLoop]
  | succ n ih =>
    intro a ha
    rcases Nat.lt_or_ge a 10 with hlt | hge
    · have hstep : quicScheduleReconnect a = (a + 1, some (min (1000 * 2 ^ a) 30000), 0) := by
        simp [quicScheduleReconnect, Nat.not_le.mpr hlt]
      rw [quicFailLoop, hstep]
      dsimp only
      rw [ih (a + 1) (by omega), backoffDelays_drop a hlt]
      simp
      split_ifs <;> omega
    · have ha10 : a = 10 := le_antisymm ha hge
      subst ha10
      rw [quicFailLoop]
      simp [quicScheduleReconnect, backoffDelays]

/-- Claim C2 (corrected): over any run of `n` consecutive failed reconnect
attempts, both streaming transports arm the delays
`min(1000 * 2 ^ k, 30000)` — starting at 1s, doubling per attempt,
capped at 30s, hence non-decreasing — and stop retrying after 10 attempts
(the armed-delay list never exceeds the 10-entry table).  At exhaustion the
QUIC transport emits exactly one terminal error event while the WebSocket
transport emits none. -/
theorem C2_backoff_and_exhaustion (n : Nat) :
    (wsFailLoop n { reconnecting := false, reconnectAttempts := 0 }).1 = backoffDelays.take n ∧
    (wsFailLoop n { reconnecting := false, reconnectAttempts := 0 }).2 = 0 ∧
    (quicFailLoop n 0).1 = backoffDelays.take n ∧
    (quicFailLoop n 0).2 = (if 10 < n then 1 else 0) ∧
    backoffDelays = (List.range 10).map (fun k => min (1000 * 2 ^ k) 30000) ∧
    List.Chain' (· ≤ ·) backoffDelays ∧
    backoffDelays.head? = some 1000 ∧
    ∀ d ∈ backoffDelays, d ≤ 30000 := by
  have hws := wsFailLoop_spec n 0 (by omega)
  have hquic := quicFailLoop_spec n 0 (by omega)
  refine ⟨?_, ?_, ?_, ?_, by decide,
    by simp [backoffDelays, List.chain'_cons, List.chain'_singleton], by decide, by decide⟩
  · simp [hws]
  · simp [hws]
  · simp [hquic]
  · simp [hquic]

/-- Witness for C2: the corrected statement at a run of 11 consecutive
failures, the first run long enough to exhaust the retry budget. -/
theorem C2_backoff_and_exhaustion_witness :
    (wsFailLoop 11 { reconnecting := false, reconnectAttempts := 0 }).1
      = backoffDelays.take 11 ∧
    (wsFailLoop 11 { reconnecting := false, reconnectAttempts := 0 }).2 = 0 ∧
    (quicFailLoop 11 0).1 = backoffDelays.take 11 ∧
    (quicFailLoop 11 0).2 = (if 10 < 11 then 1 else 0) ∧
    backoffDelays = (List.range 10).map (fun k => min (1000 * 2 ^ k) 30000) ∧
    List.Chain' (· ≤ ·) backoffDelays ∧
    backoffDelays.head? = some 1000 ∧
    ∀ d ∈ backoffDelays, d ≤ 30000 :=
  C2_backoff_and_exhaustion 11

/-- Membership in a JS-Set insertion. -/
theorem mem_setAdd {l : List String} {s t : String} : s ∈ setAdd l t ↔ s ∈ l ∨ s = t := by
  unfold setAdd
  split_ifs with ht
  · constructor
    · exact fun h => Or.inl h
    · rintro (h | h)
      · exact h
      · exact h ▸ ht
  · simp

/-- A JS-Set insertion preserves distinctness. -/
theorem nodup_setAdd {l : List String} (h : l.Nodup) (t : String) : (setAdd l t).Nodup := by
  unfold setAdd
  split_ifs with ht
  · exact h
  · simp [List.nodup_append, h]
    exact ht

/-- Core invariant of the subscription state: after any operation sequence
the subscribed-streams list is duplicate-free, and membership in it tracks
the desired-subscription specification. -/
theorem wsSub_invariant :
    ∀ (ops : List WsOp) (st : WsSubState), st.subscribedStreams.Nodup →
      ((ops.foldl wsSubStep st).subscribedStreams.Nodup ∧
        ∀ s b0, (s ∈ st.subscribedStreams ↔ b0 = true) →
          (s ∈ (ops.foldl wsSubStep st).subscribedStreams ↔
            ops.foldl (desiredStep s) b0 = true)) := by
  intro ops
  induction ops with
  | nil =>
    intro st h
    exact ⟨h, fun s b0 hb => hb⟩
  | cons op ops ih =>
    intro st h
    have hstepnd : (wsSubStep st op).subscribedStreams.Nodup := by
      cases op with
      | subscribe t => exact nodup_setAdd h t
      | unsubscribe t => exact h.erase t
      | connectOk => exact h
      | close => exact h
    obtain ⟨h1, h2⟩ := ih (wsSubStep st op) hstepnd
    refine ⟨h1, ?_⟩
    intro s b0 hb
    have hb2 : s ∈ (wsSubStep st op).subscribedStreams ↔ desiredStep s b0 op = true := by
      cases op with
      | subscribe t =>
        by_cases hts : t = s
        · subst hts
          simp [wsSubStep, wsSubscribeStream, desiredStep, mem_setAdd]
        · have hst : ¬s = t := fun hh => hts hh.symm
          simp [wsSubStep, wsSubscribeStream, desiredStep, mem_setAdd, hts, hst, hb]
      | unsubscribe t =>
        by_cases hts : t = s
        · subst hts
          simp [wsSubStep, wsUnsubscribeStream, desiredStep, List.Nodup.mem_erase_iff h]
        · have hst : s ≠ t := fun hh => hts hh.symm
          simp [wsSubStep, wsUnsubscribeStream, desiredStep, List.mem_erase_of_ne hst, hts, hb]
      | connectOk => simpa [wsSubStep, wsOnConnected, desiredStep] using hb
      | close => simpa [wsSubStep, wsOnClosedSub, desiredStep] using hb
    exact h2 s (desiredStep s b0 op) hb2

/-- Claim C4 (confirmed): after any sequence of caller operations the
subscription set is duplicate-free and coincides with the desired-intent
specification (so subscribing while disconnected persists the intent); the
`'connected'` handler replays exactly one subscribe request per desired
stream; and subscribing while disconnected sends nothing on the wire while
still recording the stream. -/
theorem C4_subscription_replay (ops : List WsOp) (s : String) :
    (wsSubRun ops).subscribedStreams.Nodup ∧
    (s ∈ (wsSubRun ops).subscribedStreams ↔ wsDesired ops s = true) ∧
    (wsOnConnected (wsSubRun ops)).sent
      = (wsSubRun ops).sent ++ (wsSubRun ops).subscribedStreams.map WsMsg.sub ∧
    ((wsSubRun ops).subscribedStreams.map WsMsg.sub).count (WsMsg.sub s)
      = (if wsDesired ops s then 1 else 0) ∧
    ((wsSubRun ops).connected = false →
      (wsSubscribeStream (wsSubRun ops) s).sent = (wsSubRun ops).sent ∧
      s ∈ (wsSubscribeStream (wsSubRun ops) s).subscribedStreams) := by
  obtain ⟨hnodup, hmem⟩ := wsSub_invariant ops wsSubInit (by simp [wsSubInit])
  have hdes := hmem s false (by simp [wsSubInit])
  refine ⟨hnodup, hdes, rfl, ?_, ?_⟩
  · rw [List.count_map_of_injective _ WsMsg.sub (fun a b hab => by injection hab) s]
    by_cases hd : wsDesired ops s
    · rw [if_pos hd]
      exact List.count_eq_one_of_mem hnodup (hdes.mpr hd)
    · rw [if_neg hd]
      exact List.count_eq_zero_of_not_mem fun hmem2 => hd (hdes.mp hmem2)
  · intro hconn
    exact ⟨by simp [wsSubscribeStream, hconn], by simp [wsSubscribeStream, mem_setAdd]⟩

/-- Witness for C4: subscribing to leader hints while disconnected persists
the intent, sends nothing, and the stream is desired. -/
theorem C4_subscription_replay_witness :
    ("leader_hints" ∈ (wsSubRun [WsOp.subscribe "leader_hints"]).subscribedStreams ↔
      wsDesired [WsOp.subscribe "leader_hints"] "leader_hints" = true) ∧
    (wsSubscribeStream (wsSubRun [WsOp.subscribe "leader_hints"]) "leader_hints").sent
      = (wsSubRun [WsOp.subscribe "leader_hints"]).sent :=
  ⟨(C4_subscription_replay [WsOp.subscribe "leader_hints"] "leader_hints").2.1,
    ((C4_subscription_replay [WsOp.subscribe "leader_hints"] "leader_hints").2.2.2.2 rfl).1⟩

/-- Counter invariant of the client: confirmed never exceeds submitted. -/
theorem clientRun_conf_le_sub :
    ∀ (evs : List SubmitEvent) (m : ClientMetrics), m.txConfirmed ≤ m.txSubmitted →
      (evs.foldl submitStep m).txConfirmed ≤ (evs.foldl submitStep m).txSubmitted := by
  intro evs
  induction evs with
  | nil => exact fun m h => h
  | cons ev evs ih =>
    intro m h
    apply ih
    cases ev with
    | failure =>
      simp [submitStep]
      omega
    | success status elapsed =>
      simp only [submitStep]
      split_ifs <;> simp <;> omega

/-- Claim C10 (confirmed): in every reachable client state confirmed ≤
submitted; with zero submissions both derived metrics are 0 (no division by
zero); and the success rate always lies in [0, 1]. -/
theorem C10_metrics_invariants (evs : List SubmitEvent) :
    (clientRun evs).txConfirmed ≤ (clientRun evs).txSubmitted ∧
    ((clientRun evs).txSubmitted = 0 →
      (metrics (clientRun evs)).averageLatencyMs = 0 ∧
      (metrics (clientRun evs)).successRate = 0) ∧
    0 ≤ (metrics (clientRun evs)).successRate ∧
    (metrics (clientRun evs)).successRate ≤ 1 := by
  have hle := clientRun_conf_le_sub evs clientMetricsInit (by simp [clientMetricsInit])
  refine ⟨hle, ?_, ?_, ?_⟩
  · intro h0
    simp [metrics, h0]
  · simp only [metrics]
    split_ifs with h
    · positivity
    · norm_num
  · simp only [metrics]
    split_ifs with h
    · rw [div_le_one (by exact_mod_cast h)]
      exact_mod_cast hle
    · norm_num

/-- Witness for C10: a client that has submitted nothing reports average
latency 0 and success rate 0. -/
theorem C10_metrics_invariants_witness :
    (metrics (clientRun [])).averageLatencyMs = 0 ∧
    (metrics (clientRun [])).successRate = 0 :=
  (C10_metrics_invariants []).2.1 rfl

end Slipstream



